import Mathlib

/-!
Verification of the HKJC race-result normalization engine.

This file gives a shallow embedding, in Lean 4, of the pure text-normalization
and feature-derivation functions of the repository
(src/_Fullrace_Date.py and src/utils.py), together with theorems settling the
frozen claims about them.

Modelling conventions:
* Python strings are Lean `String`s; `None` becomes `Option.none`.
* Python functions that can raise an uncaught exception are embedded with
  result type `Except PyErr _`; the possible exception classes are collected
  in `PyErr`.
* Python `float` values reachable in the claims are exact decimals, so floats
  are modelled as rationals (`ℚ`), and the `str(float(a)/float(b))` renderings
  of the margin parser are modelled by `fracToDecStr`, which renders the exact
  decimal expansion (identical to CPython's shortest round-trip repr for every
  value with a short terminating expansion, which covers every value any claim
  touches).
* Character-level helpers (`upper`, `lower`, `isdigit`, whitespace) model the
  ASCII behaviour of the corresponding Python methods; the source data is
  ASCII race-card text.
-/

/-- Exception classes that the embedded code can raise. -/
inductive PyErr where
  | valueError
  | typeError
  | attributeError
deriving DecidableEq

/-- Python scalar values as they appear at the untyped call sites
(`None`, `int`, or `str`). -/
inductive PyScalar where
  | pnone
  | pint (n : ℤ)
  | pstr (s : String)
deriving DecidableEq

/-- Whitespace characters recognised by Python's `str.strip` / `\s`
(ASCII whitespace plus the no-break space `\xa0` that the scraper collapses). -/
def isPyWs (c : Char) : Bool :=
  c == ' ' || c == '\t' || c == '\n' || c == '\r' ||
  c.toNat == 11 || c.toNat == 12 || c.toNat == 0xa0

/-- Strip leading and trailing whitespace from a character list. -/
def pyStripList (l : List Char) : List Char :=
  ((l.dropWhile isPyWs).reverse.dropWhile isPyWs).reverse

/-- Python `str.strip()`. -/
def pyStrip (s : String) : String :=
  String.mk (pyStripList s.toList)

/-- Replace every maximal run of whitespace characters by a single space
(the `re.sub` of `[\xa0\s]+` to one space); `prevWs` records whether the
previous character belonged to a run. -/
def collapseWsAux : List Char → Bool → List Char
  | [], _ => []
  | c :: rest, prevWs =>
      if isPyWs c then
        if prevWs then collapseWsAux rest true else ' ' :: collapseWsAux rest true
      else c :: collapseWsAux rest false

/-- ASCII uppercase of one character (Python `str.upper` on ASCII text). -/
def pyUpperChar (c : Char) : Char :=
  if 97 ≤ c.toNat ∧ c.toNat ≤ 122 then Char.ofNat (c.toNat - 32) else c

/-- ASCII lowercase of one character (Python `str.lower` on ASCII text). -/
def pyLowerChar (c : Char) : Char :=
  if 65 ≤ c.toNat ∧ c.toNat ≤ 90 then Char.ofNat (c.toNat + 32) else c

/-- Python `str.upper()` (ASCII model). -/
def pyUpper (s : String) : String :=
  String.mk (s.toList.map pyUpperChar)

/-- Python `str.lower()` (ASCII model). -/
def pyLower (s : String) : String :=
  String.mk (s.toList.map pyLowerChar)

/-- Does `needle` start the list `hay`? -/
def listStartsWith : List Char → List Char → Bool
  | [], _ => true
  | _ :: _, [] => false
  | p :: ps, c :: cs => p == c && listStartsWith ps cs

/-- Python substring membership `needle in hay`. -/
def listContainsSub (needle : List Char) : List Char → Bool
  | [] => listStartsWith needle []
  | c :: rest => listStartsWith needle (c :: rest) || listContainsSub needle rest

/-- Python `needle in hay` for strings. -/
def pyIn (needle hay : String) : Bool :=
  listContainsSub needle.toList hay.toList

/-- Python `str.isdigit()` (ASCII model): non-empty and all decimal digits. -/
def pyIsDigit (s : String) : Bool :=
  !s.toList.isEmpty && s.toList.all Char.isDigit

/-- Numeric value of a list of decimal digit characters. -/
def digitsToNat (l : List Char) : ℕ :=
  l.foldl (fun a c => a * 10 + (c.toNat - 48)) 0

/-- Python `int(str)`: strip whitespace, optional sign, decimal digits.
(Underscore-grouped and non-ASCII digit literals are not modelled; no claim
depends on them.) -/
def pyIntOfString (s : String) : Option ℤ :=
  match pyStripList s.toList with
  | '+' :: rest =>
      if rest.isEmpty then none
      else if rest.all Char.isDigit then some (digitsToNat rest) else none
  | '-' :: rest =>
      if rest.isEmpty then none
      else if rest.all Char.isDigit then some (-(digitsToNat rest : ℤ)) else none
  | l =>
      if l.isEmpty then none
      else if l.all Char.isDigit then some (digitsToNat l) else none

/-- Python `str.split(sep)` for a one-character separator. -/
def splitOnChar (sep : Char) : List Char → List (List Char)
  | [] => [[]]
  | c :: rest =>
      if c == sep then [] :: splitOnChar sep rest
      else
        match splitOnChar sep rest with
        | [] => [[c]]
        | g :: gs => (c :: g) :: gs

/-- `splitOnChar` lifted to strings. -/
def pySplit (s : String) (sep : Char) : List String :=
  (splitOnChar sep s.toList).map String.mk

/-- Left-pad a numeral string with zeros to width `k`. -/
def padZeros (s : String) (k : ℕ) : String :=
  if k ≤ s.length then s else String.mk (List.replicate (k - s.length) '0') ++ s

/-- Decimal rendering of the non-negative fraction `n / d` (with `d ≠ 0`), as
Python `str(float(n) / float(d))` renders it: integer part, a dot, and the
shortest exact fractional digits (whole values get a trailing `.0`).  This is
identical to CPython's shortest round-trip float repr for every value with a
short terminating decimal expansion, which covers every value a claim touches;
for fractions whose expansion does not terminate within 17 digits the
rendering truncates there (unreached by any claim). -/
def fracToDecStr (n d : ℕ) : String :=
  match (List.range 18).find? (fun k => (n * 10 ^ k) % d == 0) with
  | some 0 => toString (n / d) ++ ".0"
  | some k =>
      let m := n * 10 ^ k / d
      toString (m / 10 ^ k) ++ "." ++ padZeros (toString (m % 10 ^ k)) k
  | none =>
      let m := n * 10 ^ 17 / d
      toString (m / 10 ^ 17) ++ "." ++ padZeros (toString (m % 10 ^ 17)) 17

example : fracToDecStr 3 4 = "0.75" := by decide
example : fracToDecStr 3 2 = "1.5" := by decide
example : fracToDecStr 0 5 = "0.0" := by decide
example : fracToDecStr 8 2 = "4.0" := by decide

namespace FullraceDate

/-- Embeds `clean_text` (src/_Fullrace_Date.py:40-43): `None`, empty, and the
placeholder tokens collapse to `None`; otherwise runs of whitespace (incl.
`\xa0`) are replaced by single spaces and the ends are stripped. -/
def clean_text (text : Option String) : Option String :=
  match text with
  | none => none
  | some s =>
      if s = "" then none
      else if pyStrip s = "" ∨ pyStrip s = "N/A" ∨ pyStrip s = "---" ∨ pyStrip s = "--" then none
      else some (pyStrip (String.mk (collapseWsAux s.toList false)))

/-- Embeds `safe_int` (src/_Fullrace_Date.py:45-47): keep only digit
characters, `None` if nothing is left.  `str(None)` is the text `None`. -/
def safe_int (value : Option String) : Option ℤ :=
  let cleaned := ((value.getD "None").toList).filter Char.isDigit
  if cleaned.isEmpty then none else some (digitsToNat cleaned : ℤ)

/-- Embeds `safe_float` (src/_Fullrace_Date.py:49-51): keep only digits and
dots; `None` if nothing is left; otherwise `float(cleaned)`, which raises
`ValueError` when the remainder is not a float literal (two or more dots, or
dots with no digit). -/
def safe_float (value : Option String) : Except PyErr (Option ℚ) :=
  let cleaned := String.mk (((value.getD "None").toList).filter (fun c => c.isDigit || c == '.'))
  if cleaned = "" then .ok none
  else if cleaned.toList.all (fun c => c == '.') then .error .valueError
  else
    match pySplit cleaned '.' with
    | [a] => .ok (some (digitsToNat a.toList : ℚ))
    | [a, b] => .ok (some ((digitsToNat a.toList : ℚ) + (digitsToNat b.toList : ℚ) / (10 : ℚ) ^ b.length))
    | _ => .error .valueError

/-- Take exactly `n` decimal digits off the front of the list. -/
def takeExactDigits : ℕ → List Char → Option (List Char × List Char)
  | 0, l => some ([], l)
  | _ + 1, [] => none
  | n + 1, c :: rest =>
      if c.isDigit then
        match takeExactDigits n rest with
        | some (ds, r) => some (c :: ds, r)
        | none => none
      else none

/-- Consume one `/` character. -/
def afterSlash : List Char → Option (List Char)
  | '/' :: r => some r
  | _ => none

/-- Greedy match of the year group `(\d{2,4})`: four digits, else three,
else two. -/
def tryYear (l : List Char) : Option (List Char) :=
  match takeExactDigits 4 l with
  | some (ds, _) => some ds
  | none =>
      match takeExactDigits 3 l with
      | some (ds, _) => some ds
      | none =>
          match takeExactDigits 2 l with
          | some (ds, _) => some ds
          | none => none

/-- One alternative of the date pattern at the current position: `dn` digits,
a slash, `mn` digits, a slash, then the year group. -/
def tryDMY (dn mn : ℕ) (l : List Char) : Option (String × String × String) := do
  let (ds, r1) ← takeExactDigits dn l
  let r2 ← afterSlash r1
  let (ms, r3) ← takeExactDigits mn r2
  let r4 ← afterSlash r3
  let ys ← tryYear r4
  pure (String.mk ds, String.mk ms, String.mk ys)

/-- The regex `(\d{1,2})/(\d{1,2})/(\d{2,4})` anchored at the current
position, with the greedy/backtracking alternative order of `re`. -/
def matchDMYAt (l : List Char) : Option (String × String × String) :=
  tryDMY 2 2 l <|> tryDMY 2 1 l <|> tryDMY 1 2 l <|> tryDMY 1 1 l

/-- `re.search` of the date pattern: leftmost match wins. -/
def searchDMY : List Char → Option (String × String × String)
  | [] => none
  | c :: rest => matchDMYAt (c :: rest) <|> searchDMY rest

/-- Leap-year rule of the proleptic Gregorian calendar used by `datetime`. -/
def isLeap (y : ℕ) : Bool :=
  (y % 4 == 0 && y % 100 != 0) || y % 400 == 0

/-- Days in a month, as `datetime` validates them. -/
def daysInMonth (m y : ℕ) : ℕ :=
  if m = 2 then (if isLeap y then 29 else 28)
  else if m = 4 ∨ m = 6 ∨ m = 9 ∨ m = 11 then 30
  else 31

/-- Embeds `datetime.strptime(f'{day}/{month}/{year}', fmt)` for the formats
`%d/%m/%Y` (4-digit year) and `%d/%m/%y` (2-digit year, POSIX pivot 69).
A 3-digit year group leaves a character unconsumed by `%y` and raises; day or
month out of range raises; both are modelled as `none` here and mapped to
`ValueError` by the caller. -/
def strptime_dmy (ds ms ys : String) : Option (ℕ × ℕ × ℕ) :=
  let d := digitsToNat ds.toList
  let mo := digitsToNat ms.toList
  match ys.length with
  | 2 =>
      let y2 := digitsToNat ys.toList
      let y := if y2 ≤ 68 then 2000 + y2 else 1900 + y2
      if 1 ≤ mo ∧ mo ≤ 12 ∧ 1 ≤ d ∧ d ≤ daysInMonth mo y then some (d, mo, y) else none
  | 4 =>
      let y := digitsToNat ys.toList
      if 1 ≤ y ∧ 1 ≤ mo ∧ mo ≤ 12 ∧ 1 ≤ d ∧ d ≤ daysInMonth mo y then some (d, mo, y) else none
  | _ => none

/-- Two-digit zero-padded numeral, as `strftime` `%d`/`%m`/`%y` render it. -/
def fmt2 (n : ℕ) : String :=
  if n < 10 then "0" ++ toString n else toString n

/-- Embeds `parse_date` (src/_Fullrace_Date.py:53-61).  The `strptime` call
is not guarded by any `try`, so a text that matches the `D/M/Y` pattern but
is not a valid date raises `ValueError`. -/
def parse_date (raw_date : Option String) : Except PyErr (Option String) :=
  let s := (clean_text raw_date).getD ""
  match searchDMY s.toList with
  | none => .ok none
  | some (ds, ms, ys) =>
      match strptime_dmy ds ms ys with
      | none => .error .valueError
      | some (d, mo, y) => .ok (some (fmt2 d ++ "/" ++ fmt2 mo ++ "/" ++ fmt2 (y % 100)))

end FullraceDate

example : FullraceDate.clean_text (some "  a   b ") = some "a b" := by decide
example : FullraceDate.clean_text (some " N/A ") = none := by decide
example : FullraceDate.safe_int (some "12ab3") = some 123 := by decide
example : FullraceDate.safe_float (some "abc") = .ok none := rfl
example : FullraceDate.safe_float (some "1.2.3") = .error .valueError := rfl
example : FullraceDate.parse_date (some "Race on 4/5/2025 here") = .ok (some "04/05/25") := rfl
example : FullraceDate.parse_date (some "32/01/24") = .error .valueError := rfl
example : FullraceDate.parse_date (some "no date") = .ok none := rfl

namespace FullraceDate

/-- Membership of the cleaned margin text in the placeholder tuple
`('-', None, 'N/A', '---', '--', '')` tested at src/_Fullrace_Date.py:181
(the `None` member is handled by the caller's `Option` match). -/
def forbiddenTok (t : String) : Prop :=
  t = "-" ∨ t = "N/A" ∨ t = "---" ∨ t = "--" ∨ t = ""

instance instDecForbiddenTok (t : String) : Decidable (forbiddenTok t) := by
  unfold forbiddenTok; infer_instance

/-- The `special_cases` dictionary of `parse_lbw`
(src/_Fullrace_Date.py:184-187). -/
def specialCases (c : String) : Option String :=
  if c = "SAME" then some "0.01"
  else if c = "DH" then some "0.01"
  else if c = "DHT" then some "0.01"
  else if c = "NOSE" then some "0.05"
  else if c = "SH" then some "0.1"
  else if c = "HD" then some "0.2"
  else if c = "NK" then some "0.3"
  else if c = "N" then some "0.3"
  else if c = "S.DIST" then some "50"
  else if c = "DIST" then some "99"
  else none

/-- Simple-fraction branch of `parse_lbw` (src/_Fullrace_Date.py:190-193):
`some r` means the branch returned `r`; `none` means it fell through.
A zero denominator raises `ZeroDivisionError`, which the enclosing
`try` turns into an overall `None` (`some none` here). -/
def branchFrac (c : String) : Option (Option String) :=
  if c.toList.contains '/' then
    match pySplit c '/' with
    | [a, b] =>
        if pyIsDigit a && pyIsDigit b then
          if digitsToNat b.toList = 0 then some none
          else some (some (fracToDecStr (digitsToNat a.toList) (digitsToNat b.toList)))
        else none
    | _ => none
  else none

/-- Mixed-number branch of `parse_lbw` (src/_Fullrace_Date.py:194-198).
The tuple unpackings `whole, fraction = cleaned.split('-')` and
`num, denom = fraction.split('/')` raise `ValueError` unless the split has
exactly two parts; the enclosing `try` turns that into an overall `None`. -/
def branchMixed (c : String) : Option (Option String) :=
  if c.toList.contains '-' && c.toList.contains '/' then
    match pySplit c '-' with
    | [w, fr] =>
        match pySplit fr '/' with
        | [nu, de] =>
            if pyIsDigit w && pyIsDigit nu && pyIsDigit de then
              if digitsToNat de.toList = 0 then some none
              else
                some (some (fracToDecStr
                  (digitsToNat w.toList * digitsToNat de.toList + digitsToNat nu.toList)
                  (digitsToNat de.toList)))
            else none
        | _ => some none
    | _ => some none
  else none

/-- The regex `^\d*\.?\d+$` of src/_Fullrace_Date.py:199: optional digits,
an optional dot, then at least one digit. -/
def matchesDecimal (s : String) : Bool :=
  let l := s.toList
  let d1 := l.takeWhile Char.isDigit
  match l.drop d1.length with
  | [] => !l.isEmpty
  | '.' :: r2 => !r2.isEmpty && r2.all Char.isDigit
  | _ => false

/-- Trailing-`L` branch of `parse_lbw` (src/_Fullrace_Date.py:203-204). -/
def branchLSuffix (c : String) : Option String :=
  match c.toList.reverse with
  | 'L' :: restRev =>
      let front := String.mk restRev.reverse
      if pyIsDigit front then some front else none
  | _ => none

/-- Body of `parse_lbw` after normalisation to the uppercased token
(src/_Fullrace_Date.py:184-205), with the source's first-match-wins order. -/
def parseLbwCore (c : String) : Option String :=
  match specialCases c with
  | some v => some v
  | none =>
      match branchFrac c with
      | some r => r
      | none =>
          match branchMixed c with
          | some r => r
          | none =>
              if matchesDecimal c then some c
              else if pyIsDigit c then some c
              else branchLSuffix c

/-- Embeds `parse_lbw` (src/_Fullrace_Date.py:176-208): the winner's margin
is the fixed sentinel text `0.01`; otherwise the cleaned, uppercased token is
resolved through the closed vocabulary, fraction, mixed-number, decimal and
length-suffix branches, in that order, degrading to `None`. -/
def parse_lbw (lbw_str : Option String) (finish_pos : Option ℤ) : Option String :=
  if finish_pos = some 1 then some "0.01"
  else
    match clean_text lbw_str with
    | none => none
    | some t => if forbiddenTok t then none else parseLbwCore (pyUpper t)

end FullraceDate

example : FullraceDate.parse_lbw (some "garbage !!") (some 1) = some "0.01" := rfl
example : FullraceDate.parse_lbw (some " nose ") (some 2) = some "0.05" := rfl
example : FullraceDate.parse_lbw (some "3/4") (some 4) = some "0.75" := rfl
example : FullraceDate.parse_lbw (some "1-1/2") (some 4) = some "1.5" := rfl
example : FullraceDate.parse_lbw (some "2.75") (some 4) = some "2.75" := rfl
example : FullraceDate.parse_lbw (some "12L") (some 4) = some "12" := rfl
example : FullraceDate.parse_lbw (some "xyz") (some 4) = none := rfl
example : FullraceDate.parse_lbw (some "1/0") (some 4) = none := rfl
example : FullraceDate.parse_lbw (some "-") (some 4) = none := rfl
example : FullraceDate.parse_lbw none (some 4) = none := rfl

/-- Exponent suffix of a float literal: optional sign then digits,
consuming the whole remainder. -/
def parseExpPart : List Char → Option ℤ
  | [] => none
  | '+' :: r => if !r.isEmpty && r.all Char.isDigit then some (digitsToNat r : ℤ) else none
  | '-' :: r => if !r.isEmpty && r.all Char.isDigit then some (-(digitsToNat r : ℤ)) else none
  | r => if !r.isEmpty && r.all Char.isDigit then some (digitsToNat r : ℤ) else none

/-- Mantissa-and-exponent body of a float literal (no sign):
`digits [. digits] [ (e|E) exponent ]`. -/
def parseFloatBody (l : List Char) : Option ℚ :=
  let ip := l.takeWhile Char.isDigit
  let rest := l.drop ip.length
  match rest with
  | [] => if ip.isEmpty then none else some (digitsToNat ip : ℚ)
  | '.' :: r2 =>
      let fp := r2.takeWhile Char.isDigit
      let rest2 := r2.drop fp.length
      if ip.isEmpty && fp.isEmpty then none
      else
        let base : ℚ := (digitsToNat ip : ℚ) + (digitsToNat fp : ℚ) / (10 : ℚ) ^ fp.length
        match rest2 with
        | [] => some base
        | 'e' :: r3 => (parseExpPart r3).map (fun e => base * (10 : ℚ) ^ e)
        | 'E' :: r3 => (parseExpPart r3).map (fun e => base * (10 : ℚ) ^ e)
        | _ => none
  | 'e' :: r3 =>
      if ip.isEmpty then none
      else (parseExpPart r3).map (fun e => (digitsToNat ip : ℚ) * (10 : ℚ) ^ e)
  | 'E' :: r3 =>
      if ip.isEmpty then none
      else (parseExpPart r3).map (fun e => (digitsToNat ip : ℚ) * (10 : ℚ) ^ e)
  | _ => none

/-- Python `float(str)` for finite decimal literals: strip whitespace,
optional sign, then the mantissa/exponent body.  `inf`, `nan` and
underscore-grouped literals are not modelled (no claim depends on them). -/
def pyFloatOfString (s : String) : Option ℚ :=
  match pyStripList s.toList with
  | '+' :: r => parseFloatBody r
  | '-' :: r => (parseFloatBody r).map (fun q => -q)
  | l => parseFloatBody l

namespace Utils

/-- Embeds `sanitize_text` (src/utils.py:22-30): falsy input becomes the
empty string; otherwise non-ASCII characters are removed and the ends are
stripped. -/
def sanitize_text (text : Option String) : String :=
  match text with
  | none => ""
  | some s =>
      if s = "" then ""
      else pyStrip (String.mk (s.toList.filter (fun c => c.toNat ≤ 127)))

/-- Embeds the `utils.py` variant of `parse_lbw` (src/utils.py:72-79): the
winner's margin is the float `0.0`; otherwise `float(text)`, degrading to
`None` on failure. -/
def parse_lbw (lbw_str : Option String) (placing : Option ℤ) : Option ℚ :=
  let s := sanitize_text lbw_str
  if placing = some 1 then some 0
  else pyFloatOfString s

/-- Threshold ladder of the `(ST, AWT)` branch of `get_distance_group`
(src/utils.py:92-104), including the `≤ 1000 → Sprint` bucket. -/
def distGroupStAwt (d : ℤ) : String :=
  if d ≤ 1000 then "Sprint"
  else if d ≤ 1200 then "Short"
  else if d ≤ 1400 then "Short"
  else if d ≤ 1650 then "Mid"
  else if d ≤ 2000 then "Long"
  else "Endurance"

/-- Threshold ladder of the `(ST, turf)` branch of `get_distance_group`
(src/utils.py:105-115). -/
def distGroupStTurf (d : ℤ) : String :=
  if d ≤ 1000 then "Sprint"
  else if d ≤ 1400 then "Short"
  else if d ≤ 1800 then "Mid"
  else if d ≤ 2200 then "Long"
  else "Endurance"

/-- Threshold ladder of the `HV` branch of `get_distance_group`
(src/utils.py:116-126). -/
def distGroupHv (d : ℤ) : String :=
  if d ≤ 1000 then "Sprint"
  else if d ≤ 1200 then "Short"
  else if d ≤ 1800 then "Mid"
  else if d ≤ 2200 then "Long"
  else "Endurance"

/-- Embeds `get_distance_group` (src/utils.py:87-127).  The first two source
lines call `.upper()` on `course_type` and then on `race_course`, so a `None`
in either position raises `AttributeError` (on `course_type` first). -/
def get_distance_group (race_course course_type : Option String) (distance : ℤ) :
    Except PyErr String :=
  match course_type with
  | none => .error .attributeError
  | some ct =>
      match race_course with
      | none => .error .attributeError
      | some rc =>
          .ok (if pyUpper rc = "ST" then
                 (if pyUpper ct = "AWT" then distGroupStAwt distance else distGroupStTurf distance)
               else if pyUpper rc = "HV" then distGroupHv distance
               else "Unknown")

end Utils

namespace FullraceDate

/-- Embeds the distance-group derivation step of `scrape_race`
(src/_Fullrace_Date.py:266): `get_distance_group(race_course, course_type,
distance) if distance is not None else None`.  This is the only guard: a
missing course type with a present distance reaches the unguarded
`.upper()`. -/
def deriveDistanceGroup (race_course course_type : Option String)
    (distance : Option ℤ) : Except PyErr (Option String) :=
  match distance with
  | none => .ok none
  | some d => (Utils.get_distance_group race_course course_type d).map some

end FullraceDate

example : Utils.get_distance_group (some "ST") (some "TURF") 1000 = .ok "Sprint" := rfl
example : Utils.get_distance_group (some "ST") none 1200 = .error .attributeError := rfl
example : Utils.parse_lbw (some "anything") (some 1) = some 0 := rfl
example : Utils.parse_lbw (some "2.5") (some 3) = some ((5 : ℚ) / 2) := by
  show some ((2 : ℚ) + 5 / 10 ^ 1) = some ((5 : ℚ) / 2)
  norm_num

namespace Utils

/-- Embeds `_norm_course` (src/utils.py:228-235). -/
def _norm_course (course : Option String) : String :=
  let t := pyUpper (pyStrip (course.getD ""))
  if t = "ST" || t = "SHA TIN" || pyIn "SHA TIN" t then "ST"
  else if t = "HV" || t = "HAPPY VALLEY" || pyIn "HAPPY VALLEY" t then "HV"
  else t

/-- Embeds `_norm_surface` (src/utils.py:237-244). -/
def _norm_surface (surface : Option String) : String :=
  let t := pyUpper (pyStrip (surface.getD ""))
  if t = "TURF" || t = "T" then "TURF"
  else if t = "AWT" || t = "ALL WEATHER" || t = "ALL-WEATHER" || t = "ALL WEATHER TRACK" || t = "DIRT" then "AWT"
  else t

/-- Association-list lookup, the `dict.get` of the inner distance maps. -/
def assocFind (l : List (ℤ × ℚ)) (d : ℤ) : Option ℚ :=
  match l with
  | [] => none
  | (k, v) :: rest => if k = d then some v else assocFind rest d

/-- Embeds `_TURN_COUNT_MAP` (src/utils.py:247-264): `dict.get` on the
`(course, surface)` key. Turn counts are exact decimals, written as
rationals. -/
def _TURN_COUNT_MAP (key : String × String) : Option (List (ℤ × ℚ)) :=
  if key = ("ST", "TURF") then
    some [(1000, mkRat 0 1), (1200, mkRat 1 1), (1400, mkRat 1 1), (1600, mkRat 1 1),
          (1800, mkRat 1 1), (2000, mkRat 2 1), (2200, mkRat 2 1), (2400, mkRat 2 1)]
  else if key = ("ST", "AWT") then
    some [(1200, mkRat 1 1), (1650, mkRat 2 1), (1800, mkRat 2 1), (2000, mkRat 2 1),
          (2400, mkRat 3 1)]
  else if key = ("HV", "TURF") then
    some [(1000, mkRat 1 1), (1200, mkRat 3 2), (1650, mkRat 5 2), (1800, mkRat 5 2),
          (2200, mkRat 7 2), (2400, mkRat 7 2)]
  else none

/-- The normalised `(course, surface)` key computed by `get_turn_count`
(src/utils.py:272-275): course and surface are canonicalised, and at `HV`
the surface is collapsed to turf. -/
def turnKey (race_course surface : Option String) : String × String :=
  let c := _norm_course race_course
  (c, if c = "HV" then "TURF" else _norm_surface surface)

/-- Embeds `get_turn_count` (src/utils.py:266-279) for integer distances
(`int(str(distance).strip())` round-trips an integer unchanged): exact map
lookup, `None` when the key pair or the distance is absent. -/
def get_turn_count (race_course surface : Option String) (distance : ℤ) : Option ℚ :=
  match _TURN_COUNT_MAP (turnKey race_course surface) with
  | none => none
  | some m => assocFind m distance

/-- Embeds `is_straight` (src/utils.py:281-282): `turn_count == 0.0`
(`None == 0.0` is false in Python). -/
def is_straight (turn_count : Option ℚ) : Bool :=
  decide (turn_count = some (mkRat 0 1))

/-- Embeds `is_fractional_turn` (src/utils.py:284-285):
`turn_count is not None and float(turn_count) % 1.0 != 0.0`.  For an exact
rational, `x % 1.0 != 0.0` holds exactly when the reduced denominator does
not divide the numerator. -/
def is_fractional_turn (turn_count : Option ℚ) : Bool :=
  match turn_count with
  | none => false
  | some q => decide (q.num % (q.den : ℤ) ≠ 0)

/-- Python `int(str(x).strip())` for a scalar: an integer round-trips
unchanged through `str`; a string is parsed by `int`; `None` gives the
unparsable text `None` and raises (caught by every caller). -/
def pyToIntViaStr : PyScalar → Option ℤ
  | .pnone => none
  | .pint n => some n
  | .pstr s => pyIntOfString (pyStrip s)

/-- The fixed draw bands of `get_draw_group` (src/utils.py:308-318). -/
def drawBands (d : ℤ) : Option String :=
  if 1 ≤ d ∧ d ≤ 3 then some "Inside"
  else if 4 ≤ d ∧ d ≤ 6 then some "InnerMid"
  else if 7 ≤ d ∧ d ≤ 9 then some "OuterMid"
  else if 10 ≤ d ∧ d ≤ 12 then some "Wide"
  else if 13 ≤ d then some "Outer"
  else none

/-- Embeds `get_draw_group` (src/utils.py:290-318): fixed bands on the
parsed draw number; the `field_size` parameter is accepted but never read. -/
def get_draw_group (draw_number : PyScalar) (field_size : PyScalar) : Option String :=
  match draw_number with
  | .pnone => none
  | x =>
      match pyToIntViaStr x with
      | none => none
      | some d => drawBands d

/-- Lookup of `_FIELD_SIZE_LOOKUP.get(key)`. -/
def tblGet : List ((String × String × ℤ) × ℤ) → (String × String × ℤ) → Option ℤ
  | [], _ => none
  | (k, v) :: rest, key => if k = key then some v else tblGet rest key

/-- Result of one `get_field_size` call, instrumented with the state of the
in-memory table after the call and whether the persisted store was queried. -/
structure FieldSizeOutcome where
  value : Option ℤ
  table : List ((String × String × ℤ) × ℤ)
  dbQueried : Bool
deriving DecidableEq

/-- Embeds `get_field_size` (src/utils.py:169-196).  `tbl` is the module
table `_FIELD_SIZE_LOOKUP`; `db` abstracts the persisted store's
single-record query (`None` covers both a missing row and a database
error, which the source swallows).  The source never writes to the table,
so the outcome carries it through unchanged. -/
def get_field_size (tbl : List ((String × String × ℤ) × ℤ))
    (db : String → String → String → Option ℤ)
    (race_date race_course : Option String) (race_no : PyScalar) : FieldSizeOutcome :=
  match race_date, race_course with
  | none, _ => ⟨none, tbl, false⟩
  | _, none => ⟨none, tbl, false⟩
  | some rd, some rc =>
      if race_no = PyScalar.pnone then ⟨none, tbl, false⟩
      else
        match pyToIntViaStr race_no with
        | none => ⟨none, tbl, false⟩
        | some n =>
            match tblGet tbl (rd, pyUpper (pyStrip rc), n) with
            | some v => ⟨some v, tbl, false⟩
            | none => ⟨db (rd.replace "/" "-") (pyUpper (pyStrip rc)) (toString n), tbl, true⟩

end Utils

example : Utils.get_turn_count (some "ST") (some "TURF") 1000 = some (mkRat 0 1) := rfl
example : Utils.get_turn_count (some "HV") (some "TURF") 1200 = some (mkRat 3 2) := rfl
example : Utils.get_turn_count (some "ST") (some "AWT") 1650 = some (mkRat 2 1) := rfl
example : Utils.get_turn_count (some "ST") (some "TURF") 1100 = none := rfl
example : Utils.is_straight (some (mkRat 0 1)) = true := by decide
example : Utils.is_fractional_turn (some (mkRat 3 2)) = true := by decide
example : Utils.is_fractional_turn none = false := by decide
example : Utils.get_draw_group (.pint 5) (.pint 6) = some "InnerMid" := rfl
example : Utils.get_draw_group (.pstr " 9 ") .pnone = some "OuterMid" := rfl
example : Utils.get_draw_group (.pstr "-") .pnone = none := rfl

namespace FullraceDate

/-- Feature dictionary produced by `encode_race_class`
(src/_Fullrace_Date.py:110-165). -/
structure ClassFeatures where
  ClassType : String
  ClassGroup : ℤ
  ClassLevel : ℤ
  ClassRestricted : ℤ
  ClassYear : ℤ
  ClassGriffin : ℤ
  RaceGrade : Option ℤ
deriving DecidableEq

/-- The dictionary returned for a falsy class label
(src/_Fullrace_Date.py:111-120). -/
def emptyClassFeatures : ClassFeatures :=
  ⟨"unknown", 0, 0, 0, 0, 0, none⟩

/-- The regex search `class (\d+)`: first position where the literal text
`class ` is followed by at least one digit; returns the digit run. -/
def searchClassNum : List Char → Option (List Char)
  | [] => none
  | c :: rest =>
      if listStartsWith ("class ".toList) (c :: rest) then
        let ds := ((c :: rest).drop 6).takeWhile Char.isDigit
        if ds.isEmpty then searchClassNum rest else some ds
      else searchClassNum rest

/-- The regex search `(\d+) year`: first position whose maximal digit run is
non-empty and followed by the literal text ` year`; returns the digit run. -/
def searchNumYear : List Char → Option (List Char)
  | [] => none
  | c :: rest =>
      if c.isDigit then
        let ds := (c :: rest).takeWhile Char.isDigit
        if listStartsWith (" year".toList) ((c :: rest).drop ds.length) then some ds
        else searchNumYear rest
      else searchNumYear rest

/-- The `class_type_map` short-code table (src/_Fullrace_Date.py:154-161),
applied with `dict.get(x, x)`. -/
def classTypeMap (t : String) : String :=
  if t = "standard" then "STD"
  else if t = "griffin" then "GRF"
  else if t = "group" then "GRP"
  else if t = "restricted" then "RST"
  else if t = "age" then "AGE"
  else t

/-- The initial feature dictionary of `encode_race_class`
(src/_Fullrace_Date.py:122-130), built from the cleaned lowercase label. -/
def baseFeatures (cs : String) : ClassFeatures :=
  { ClassType := "standard", ClassGroup := 0, ClassLevel := 0,
    ClassRestricted := if pyIn "restricted" cs then 1 else 0,
    ClassYear := 0,
    ClassGriffin := if pyIn "griffin" cs then 1 else 0,
    RaceGrade := none }

/-- The group / numbered-class / age-restricted branch of
`encode_race_class` (src/_Fullrace_Date.py:132-149). -/
def classifyBranch (cs : String) (base : ClassFeatures) : ClassFeatures :=
  if pyIn "group" cs then
    if pyIn "one" cs then
      { base with ClassType := "group", RaceGrade := some 1, ClassGroup := 1 }
    else if pyIn "two" cs then
      { base with ClassType := "group", RaceGrade := some 2, ClassGroup := 2 }
    else if pyIn "three" cs then
      { base with ClassType := "group", RaceGrade := some 3, ClassGroup := 3 }
    else { base with ClassType := "group" }
  else
    match searchClassNum cs.toList with
    | some ds => { base with ClassLevel := (safe_int (some (String.mk ds))).getD 0 }
    | none =>
        match searchNumYear cs.toList with
        | some ds =>
            { base with
              ClassType := "age"
              ClassYear := (safe_int (some (String.mk ds))).getD 0
              ClassLevel := 0 }
        | none => base

/-- Embeds `encode_race_class` (src/_Fullrace_Date.py:110-165).  The
`try`/`except` of the source is dead in this model: none of the guarded
operations can raise (the regex groups are non-empty digit runs, so the
`safe_int` calls always return a value — `getD 0` is unreachable). -/
def encode_race_class (raw_class : Option String) : ClassFeatures :=
  match raw_class with
  | none => emptyClassFeatures
  | some s =>
      if s = "" then emptyClassFeatures
      else
        let cs := pyLower ((clean_text (some s)).getD "")
        let f1 := classifyBranch cs (baseFeatures cs)
        let f2 := if f1.ClassGriffin = 1 then { f1 with ClassLevel := 6 } else f1
        { f2 with ClassType := classTypeMap f2.ClassType }

/-- Fully resolved class features after the post-processing block of
`scrape_race` (src/_Fullrace_Date.py:284-320). -/
structure ResolvedClass where
  ClassType : String
  ClassGroup : ℤ
  ClassLevel : ℤ
  ClassRestricted : ℤ
  ClassYear : ℤ
  ClassGriffin : ℤ
  RaceGrade : Option ℤ
  ClassCategory : String
  Class : String
  ClassML : ℤ
deriving DecidableEq

/-- Embeds the class post-processing of `scrape_race`
(src/_Fullrace_Date.py:284-320): force `GRF` on griffin, else `RST` on
restricted; promote the group number / age into `ClassLevel` and binarise
the counter field; rebuild `ClassCategory`; derive the human label `Class`
and the numeric `ClassML`. -/
def finalizeClassFeatures (f : ClassFeatures) : ResolvedClass :=
  let t1 :=
    if f.ClassGriffin = 1 then "GRF"
    else if f.ClassRestricted = 1 then "RST"
    else f.ClassType
  let lvl := if t1 = "GRP" then f.ClassGroup else if t1 = "AGE" then f.ClassYear else f.ClassLevel
  let grp := if t1 = "GRP" then 1 else f.ClassGroup
  let yr := if t1 = "AGE" then 1 else f.ClassYear
  let cat := t1 ++ "_" ++ toString lvl
  let lbl :=
    if t1 = "GRP" then "G" ++ toString lvl
    else if t1 = "AGE" then toString lvl ++ "YO"
    else if t1 = "GRF" then "GRIFFIN"
    else if t1 = "RST" then toString lvl ++ "R"
    else toString lvl
  let ml :=
    if t1 = "GRP" then lvl
    else if t1 = "AGE" then lvl
    else if t1 = "GRF" then 6
    else if t1 = "RST" then lvl
    else lvl
  ⟨t1, grp, lvl, f.ClassRestricted, yr, f.ClassGriffin, f.RaceGrade, cat, lbl, ml⟩

end FullraceDate

example : FullraceDate.finalizeClassFeatures (FullraceDate.encode_race_class (some "Class 3")) =
    ⟨"STD", 0, 3, 0, 0, 0, none, "STD_3", "3", 3⟩ := rfl
example : FullraceDate.finalizeClassFeatures (FullraceDate.encode_race_class (some "Group One")) =
    ⟨"GRP", 1, 1, 0, 0, 0, some 1, "GRP_1", "G1", 1⟩ := rfl
example : FullraceDate.finalizeClassFeatures (FullraceDate.encode_race_class (some "Griffin Race")) =
    ⟨"GRF", 0, 6, 0, 0, 1, none, "GRF_6", "GRIFFIN", 6⟩ := rfl
example : FullraceDate.finalizeClassFeatures (FullraceDate.encode_race_class (some "4 Year Olds")) =
    ⟨"AGE", 0, 4, 0, 1, 0, none, "AGE_4", "4YO", 4⟩ := rfl
example : FullraceDate.finalizeClassFeatures (FullraceDate.encode_race_class (some "Restricted Race")) =
    ⟨"RST", 0, 0, 1, 0, 0, none, "RST_0", "0R", 0⟩ := rfl
example : FullraceDate.finalizeClassFeatures (FullraceDate.encode_race_class (some "Group One Griffin")) =
    ⟨"GRF", 1, 6, 0, 0, 1, some 1, "GRF_6", "GRIFFIN", 6⟩ := rfl

/-- Helper: uppercasing a placeholder token yields a placeholder token
(every member of the tuple is fixed by `upper`). -/
lemma forbidden_upper {t : String} (h : FullraceDate.forbiddenTok t) :
    FullraceDate.forbiddenTok (pyUpper t) := by
  rcases h with h | h | h | h | h <;> subst h <;> decide

/-- Helper: evaluation of `parse_lbw` on a non-winner whose cleaned text is
`t`, in terms of the normalised uppercase token. -/
lemma parse_lbw_eval (lbw : Option String) (p : Option ℤ) (t X : String)
    (hp : p ≠ some 1) (hc : FullraceDate.clean_text lbw = some t)
    (hX : pyUpper t = X) (hnf : ¬ FullraceDate.forbiddenTok X) :
    FullraceDate.parse_lbw lbw p = FullraceDate.parseLbwCore X := by
  have hft : ¬ FullraceDate.forbiddenTok t := fun hf => hnf (hX ▸ forbidden_upper hf)
  unfold FullraceDate.parse_lbw
  rw [if_neg hp, hc]
  simp only [if_neg hft, hX]

/-- C1 (counterexample): the `utils.py` margin parser returns the float
`0.0` — zero, not the non-zero sentinel text `0.01` — for a winner,
whatever the raw margin text. -/
theorem utils_parse_lbw_winner_zero_cex :
    Utils.parse_lbw (some "NOSE") (some 1) = some 0 ∧ (0 : ℚ) ≠ 1 / 100 := by
  exact ⟨rfl, by norm_num⟩

/-- C1 (amended): for the `_Fullrace_Date.py` margin parser, every raw
margin text (including malformed, empty, or placeholder text) with
placing 1 resolves to the fixed non-zero sentinel text `0.01`; the
`utils.py` variant instead resolves every winner to the float `0.0`. -/
theorem parse_lbw_winner_sentinel :
    (∀ lbw : Option String, FullraceDate.parse_lbw lbw (some 1) = some "0.01")
    ∧ (∀ lbw : Option String, Utils.parse_lbw lbw (some 1) = some 0) := by
  constructor
  · intro lbw; unfold FullraceDate.parse_lbw; rw [if_pos rfl]
  · intro lbw; unfold Utils.parse_lbw; rw [if_pos rfl]

/-- C2 (code bug): `parse_date` raises `ValueError` on text that matches
the `D/M/Y` pattern but is not a valid date, and `safe_float` raises
`ValueError` when the digits-and-dots remainder is not a float literal;
the no-pattern and empty-remainder cases do return null as claimed. -/
theorem parse_date_safe_float_raise :
    FullraceDate.parse_date (some "32/01/24") = .error .valueError
    ∧ FullraceDate.safe_float (some "1.2.3") = .error .valueError
    ∧ FullraceDate.parse_date (some "no date here") = .ok none
    ∧ FullraceDate.safe_float (some "abc") = .ok none :=
  ⟨rfl, rfl, rfl, rfl⟩

/-- C3 (code bug): deriving the distance group with a missing
surface/course-type cell and a present distance raises `AttributeError`
inside `get_distance_group` (the unguarded `.upper()`), so race-header
construction aborts instead of yielding a null field; the guard only
covers a missing distance. -/
theorem distance_group_none_course_type_raises :
    Utils.get_distance_group (some "ST") none 1200 = .error .attributeError
    ∧ FullraceDate.deriveDistanceGroup (some "ST") none (some 1200) = .error .attributeError
    ∧ FullraceDate.deriveDistanceGroup (some "ST") none none = .ok none :=
  ⟨rfl, rfl, rfl⟩

/-- C4: for every participant with placing ≠ 1, the margin parser maps each
closed-vocabulary token to its fixed numeric mapping as decimal text,
case-insensitively and with surrounding whitespace ignored (the cleaned
token `t` is the whitespace-normalised text), the simple digit fraction
`3/4` to `0.75`, and the mixed number `1-1/2` to `1.5`. -/
theorem parse_lbw_token_mapping :
    ∀ (p : Option ℤ), p ≠ some 1 →
    ∀ (s : Option String) (t : String), FullraceDate.clean_text s = some t →
      ((pyUpper t = "SAME" ∨ pyUpper t = "DH" ∨ pyUpper t = "DHT") →
          FullraceDate.parse_lbw s p = some "0.01")
      ∧ (pyUpper t = "NOSE" → FullraceDate.parse_lbw s p = some "0.05")
      ∧ (pyUpper t = "SH" → FullraceDate.parse_lbw s p = some "0.1")
      ∧ (pyUpper t = "HD" → FullraceDate.parse_lbw s p = some "0.2")
      ∧ (pyUpper t = "NK" → FullraceDate.parse_lbw s p = some "0.3")
      ∧ (pyUpper t = "S.DIST" → FullraceDate.parse_lbw s p = some "50")
      ∧ (pyUpper t = "DIST" → FullraceDate.parse_lbw s p = some "99")
      ∧ (pyUpper t = "3/4" → FullraceDate.parse_lbw s p = some "0.75")
      ∧ (pyUpper t = "1-1/2" → FullraceDate.parse_lbw s p = some "1.5") := by
  intro p hp s t hc
  refine ⟨?_, ?_, ?_, ?_, ?_, ?_, ?_, ?_, ?_⟩
  · rintro (hX | hX | hX) <;>
      exact (parse_lbw_eval s p t _ hp hc hX (by decide)).trans (by decide)
  all_goals exact fun hX => (parse_lbw_eval s p t _ hp hc hX (by decide)).trans (by decide)

/-- C4 (witness): concrete instances of the token mapping. -/
theorem parse_lbw_token_mapping_witness :
    FullraceDate.parse_lbw (some " nose ") (some 2) = some "0.05"
    ∧ FullraceDate.parse_lbw (some "1-1/2") (some 5) = some "1.5" :=
  ⟨(parse_lbw_token_mapping (some 2) (by decide) (some " nose ") "nose" (by decide)).2.1
      (by decide),
   (parse_lbw_token_mapping (some 5) (by decide) (some "1-1/2") "1-1/2"
      (by decide)).2.2.2.2.2.2.2.2 (by decide)⟩

/-- C5: distance-group classification is a pure total function of (venue,
surface family, distance): the three sample lookups, `Unknown` for every
venue whose uppercased code is outside `{ST, HV}` at every distance, and
`Sprint` for every distance ≤ 1000 on the `(ST, AWT)` branch. -/
theorem distance_group_classification :
    Utils.get_distance_group (some "ST") (some "TURF") 1000 = .ok "Sprint"
    ∧ Utils.get_distance_group (some "ST") (some "TURF") 1400 = .ok "Short"
    ∧ Utils.get_distance_group (some "HV") (some "TURF") 2200 = .ok "Long"
    ∧ (∀ (rc ct : String) (d : ℤ), pyUpper rc ≠ "ST" → pyUpper rc ≠ "HV" →
        Utils.get_distance_group (some rc) (some ct) d = .ok "Unknown")
    ∧ (∀ d : ℤ, d ≤ 1000 → Utils.get_distance_group (some "ST") (some "AWT") d = .ok "Sprint") := by
  refine ⟨rfl, rfl, rfl, ?_, ?_⟩
  · intro rc ct d h1 h2
    unfold Utils.get_distance_group
    simp [h1, h2]
  · intro d hd
    show Except.ok (Utils.distGroupStAwt d) = Except.ok "Sprint"
    unfold Utils.distGroupStAwt
    rw [if_pos hd]

/-- C5 (witness): an unknown venue and a short all-weather distance. -/
theorem distance_group_classification_witness :
    Utils.get_distance_group (some "CH") (some "TURF") 1600 = .ok "Unknown"
    ∧ Utils.get_distance_group (some "ST") (some "AWT") 900 = .ok "Sprint" :=
  ⟨distance_group_classification.2.2.2.1 "CH" "TURF" 1600 (by decide) (by decide),
   distance_group_classification.2.2.2.2 900 (by decide)⟩

/-- C6: turn count is an exact lookup — the three sample lookups with their
`is_straight`/`is_fractional_turn` classifications, collapse of any `HV`
surface to turf for every distance, and null for every combination absent
from the table. -/
theorem turn_count_lookup :
    Utils.get_turn_count (some "ST") (some "TURF") 1000 = some (mkRat 0 1)
    ∧ Utils.is_straight (Utils.get_turn_count (some "ST") (some "TURF") 1000) = true
    ∧ Utils.get_turn_count (some "HV") (some "TURF") 1200 = some (mkRat 3 2)
    ∧ Utils.is_fractional_turn (Utils.get_turn_count (some "HV") (some "TURF") 1200) = true
    ∧ Utils.get_turn_count (some "ST") (some "AWT") 1650 = some (mkRat 2 1)
    ∧ (∀ d : ℤ,
        Utils.get_turn_count (some "HV") (some "AWT") d
          = Utils.get_turn_count (some "HV") (some "TURF") d)
    ∧ (∀ (c s : Option String) (d : ℤ),
        (match Utils._TURN_COUNT_MAP (Utils.turnKey c s) with
         | none => True
         | some m => Utils.assocFind m d = none) →
        Utils.get_turn_count c s d = none) := by
  refine ⟨rfl, rfl, rfl, rfl, rfl, fun d => rfl, ?_⟩
  intro c s d h
  unfold Utils.get_turn_count
  rcases heq : Utils._TURN_COUNT_MAP (Utils.turnKey c s) with _ | m
  · rfl
  · rw [heq] at h
    exact h

/-- C6 (witness): a distance absent from the `(ST, TURF)` table. -/
theorem turn_count_lookup_witness :
    Utils.get_turn_count (some "ST") (some "TURF") 1100 = none :=
  turn_count_lookup.2.2.2.2.2.2 (some "ST") (some "TURF") 1100 (by exact rfl)

/-- Helper: `get_draw_group` in terms of the parsed draw number (the
`.pnone` arm coincides with a failed parse). -/
lemma get_draw_group_eq (x fs : PyScalar) :
    Utils.get_draw_group x fs
      = match Utils.pyToIntViaStr x with
        | none => none
        | some d => Utils.drawBands d := by
  cases x <;> rfl

/-- C8: draw-group classification never consults the field-size argument,
`get_draw_group(5, 6) = get_draw_group(5, 20) = InnerMid`, and the bands
are fixed at 1-3 Inside, 4-6 InnerMid, 7-9 OuterMid, 10-12 Wide, 13+
Outer. -/
theorem draw_group_field_size_independent :
    (∀ d fs1 fs2 : PyScalar, Utils.get_draw_group d fs1 = Utils.get_draw_group d fs2)
    ∧ Utils.get_draw_group (.pint 5) (.pint 6) = some "InnerMid"
    ∧ Utils.get_draw_group (.pint 5) (.pint 20) = some "InnerMid"
    ∧ (∀ (d : ℤ) (fs : PyScalar), 1 ≤ d → d ≤ 3 →
        Utils.get_draw_group (.pint d) fs = some "Inside")
    ∧ (∀ (d : ℤ) (fs : PyScalar), 4 ≤ d → d ≤ 6 →
        Utils.get_draw_group (.pint d) fs = some "InnerMid")
    ∧ (∀ (d : ℤ) (fs : PyScalar), 7 ≤ d → d ≤ 9 →
        Utils.get_draw_group (.pint d) fs = some "OuterMid")
    ∧ (∀ (d : ℤ) (fs : PyScalar), 10 ≤ d → d ≤ 12 →
        Utils.get_draw_group (.pint d) fs = some "Wide")
    ∧ (∀ (d : ℤ) (fs : PyScalar), 13 ≤ d →
        Utils.get_draw_group (.pint d) fs = some "Outer") := by
  refine ⟨fun d fs1 fs2 => rfl, rfl, rfl, ?_, ?_, ?_, ?_, ?_⟩
  · intro d fs h1 h2
    show Utils.drawBands d = some "Inside"
    unfold Utils.drawBands
    rw [if_pos ⟨h1, h2⟩]
  · intro d fs h1 h2
    show Utils.drawBands d = some "InnerMid"
    unfold Utils.drawBands
    rw [if_neg (by omega), if_pos ⟨h1, h2⟩]
  · intro d fs h1 h2
    show Utils.drawBands d = some "OuterMid"
    unfold Utils.drawBands
    rw [if_neg (by omega), if_neg (by omega), if_pos ⟨h1, h2⟩]
  · intro d fs h1 h2
    show Utils.drawBands d = some "Wide"
    unfold Utils.drawBands
    rw [if_neg (by omega), if_neg (by omega), if_neg (by omega), if_pos ⟨h1, h2⟩]
  · intro d fs h1
    show Utils.drawBands d = some "Outer"
    unfold Utils.drawBands
    rw [if_neg (by omega), if_neg (by omega), if_neg (by omega), if_neg (by omega), if_pos h1]

/-- C8 (witness): a band instance with a hypothesis discharged. -/
theorem draw_group_field_size_independent_witness :
    Utils.get_draw_group (.pint 11) (.pstr "8") = some "Wide" :=
  draw_group_field_size_independent.2.2.2.2.2.2.1 11 (.pstr "8") (by decide) (by decide)

/-- C10: `get_draw_group` returns null whenever the draw is null,
non-numeric text, or an integer below 1, and every non-null result comes
from a parsed integer draw ≥ 1. -/
theorem draw_group_null_conditions :
    (∀ fs : PyScalar, Utils.get_draw_group .pnone fs = none)
    ∧ (∀ (s : String) (fs : PyScalar), pyIntOfString (pyStrip s) = none →
        Utils.get_draw_group (.pstr s) fs = none)
    ∧ (∀ (d : ℤ) (fs : PyScalar), d < 1 → Utils.get_draw_group (.pint d) fs = none)
    ∧ (∀ (x fs : PyScalar) (g : String), Utils.get_draw_group x fs = some g →
        ∃ d : ℤ, Utils.pyToIntViaStr x = some d ∧ 1 ≤ d) := by
  refine ⟨fun fs => rfl, ?_, ?_, ?_⟩
  · intro s fs h
    rw [get_draw_group_eq]
    show (match Utils.pyToIntViaStr (.pstr s) with
          | none => none
          | some d => Utils.drawBands d) = none
    rw [show Utils.pyToIntViaStr (.pstr s) = pyIntOfString (pyStrip s) from rfl, h]
  · intro d fs h
    show Utils.drawBands d = none
    unfold Utils.drawBands
    rw [if_neg (by omega), if_neg (by omega), if_neg (by omega), if_neg (by omega),
      if_neg (by omega)]
  · intro x fs g h
    rw [get_draw_group_eq] at h
    rcases heq : Utils.pyToIntViaStr x with _ | n
    · rw [heq] at h
      exact Option.noConfusion h
    · rw [heq] at h
      have hb : Utils.drawBands n = some g := h
      refine ⟨n, rfl, ?_⟩
      unfold Utils.drawBands at hb
      split at hb
      · omega
      · split at hb
        · omega
        · split at hb
          · omega
          · split at hb
            · omega
            · split at hb
              · omega
              · exact Option.noConfusion hb

/-- C10 (witness): null results for text, zero and negative draws, and a
non-null result arising from a parsed draw ≥ 1. -/
theorem draw_group_null_conditions_witness :
    Utils.get_draw_group (.pstr "abc") .pnone = none
    ∧ Utils.get_draw_group (.pint 0) .pnone = none
    ∧ ∃ d : ℤ, Utils.pyToIntViaStr (.pint 7) = some d ∧ 1 ≤ d :=
  ⟨draw_group_null_conditions.2.1 "abc" .pnone (by decide),
   draw_group_null_conditions.2.2.1 0 .pnone (by decide),
   draw_group_null_conditions.2.2.2 (.pint 7) .pnone "OuterMid" (by decide)⟩

/-- C9: a field-size lookup never mutates the in-memory index (the table
after any call equals the table before, so a repeated call behaves
identically), consults the in-memory table first and returns a hit without
touching the persisted store, and on a miss answers with exactly the
persisted store's single-record query without adding a key. -/
theorem field_size_lookup_pure :
    ∀ (tbl : List ((String × String × ℤ) × ℤ)) (db : String → String → String → Option ℤ)
      (rd rc : Option String) (no : PyScalar),
      (Utils.get_field_size tbl db rd rc no).table = tbl
      ∧ Utils.get_field_size (Utils.get_field_size tbl db rd rc no).table db rd rc no
          = Utils.get_field_size tbl db rd rc no
      ∧ (∀ (rds rcs : String) (n v : ℤ), rd = some rds → rc = some rcs → no ≠ .pnone →
          Utils.pyToIntViaStr no = some n →
          Utils.tblGet tbl (rds, pyUpper (pyStrip rcs), n) = some v →
          Utils.get_field_size tbl db rd rc no = ⟨some v, tbl, false⟩)
      ∧ (∀ (rds rcs : String) (n : ℤ), rd = some rds → rc = some rcs → no ≠ .pnone →
          Utils.pyToIntViaStr no = some n →
          Utils.tblGet tbl (rds, pyUpper (pyStrip rcs), n) = none →
          Utils.get_field_size tbl db rd rc no
            = ⟨db (rds.replace "/" "-") (pyUpper (pyStrip rcs)) (toString n), tbl, true⟩) := by
  intro tbl db rd rc no
  have htab : (Utils.get_field_size tbl db rd rc no).table = tbl := by
    rcases rd with _ | rds <;> rcases rc with _ | rcs
    · rfl
    · rfl
    · rfl
    · simp only [Utils.get_field_size]
      by_cases hn : no = PyScalar.pnone
      · rw [if_pos hn]
      · rw [if_neg hn]
        rcases h2 : Utils.pyToIntViaStr no with _ | n
        · simp only [h2]
        · simp only [h2]
          rcases h3 : Utils.tblGet tbl (rds, pyUpper (pyStrip rcs), n) with _ | v <;>
            simp only [h3]
  refine ⟨htab, by rw [htab], ?_, ?_⟩
  · intro rds rcs n v h1 h2 h3 h4 h5
    subst h1; subst h2
    simp only [Utils.get_field_size, if_neg h3, h4, h5]
  · intro rds rcs n h1 h2 h3 h4 h5
    subst h1; subst h2
    simp only [Utils.get_field_size, if_neg h3, h4, h5]

/-- C9 (witness): one hit (store untouched) and one miss (store queried,
table unchanged) on a concrete table. -/
theorem field_size_lookup_pure_witness :
    Utils.get_field_size [(("01/09/24", "ST", 3), 14)] (fun _ _ _ => some 12)
        (some "01/09/24") (some " st ") (.pint 3)
      = ⟨some 14, [(("01/09/24", "ST", 3), 14)], false⟩
    ∧ Utils.get_field_size [(("01/09/24", "ST", 3), 14)] (fun _ _ _ => some 12)
        (some "01/09/24") (some "ST") (.pint 4)
      = ⟨some 12, [(("01/09/24", "ST", 3), 14)], true⟩ :=
  ⟨(field_size_lookup_pure [(("01/09/24", "ST", 3), 14)] (fun _ _ _ => some 12)
      (some "01/09/24") (some " st ") (.pint 3)).2.2.1 "01/09/24" " st " 3 14
      rfl rfl (by decide) rfl (by decide),
   (field_size_lookup_pure [(("01/09/24", "ST", 3), 14)] (fun _ _ _ => some 12)
      (some "01/09/24") (some "ST") (.pint 4)).2.2.2 "01/09/24" "ST" 4
      rfl rfl (by decide) rfl (by decide)⟩

/-- Helper: the group / numbered-class / age branch never touches the
griffin flag. -/
lemma classify_keeps_griffin (cs : String) (b : FullraceDate.ClassFeatures) :
    (FullraceDate.classifyBranch cs b).ClassGriffin = b.ClassGriffin := by
  unfold FullraceDate.classifyBranch
  repeat first | rfl | split

/-- Helper: a label whose cleaned lowercase text contains `griffin` yields
features with `ClassGriffin = 1` and `ClassLevel = 6`. -/
lemma encode_griffin (s : String) (hs : ¬ (s = ""))
    (h : pyIn "griffin" (pyLower ((FullraceDate.clean_text (some s)).getD "")) = true) :
    (FullraceDate.encode_race_class (some s)).ClassGriffin = 1
    ∧ (FullraceDate.encode_race_class (some s)).ClassLevel = 6 := by
  have hg1 : (FullraceDate.classifyBranch (pyLower ((FullraceDate.clean_text (some s)).getD ""))
      (FullraceDate.baseFeatures (pyLower ((FullraceDate.clean_text (some s)).getD "")))).ClassGriffin
        = 1 := by
    rw [classify_keeps_griffin]
    unfold FullraceDate.baseFeatures
    simp [h]
  simp only [FullraceDate.encode_race_class]
  rw [if_neg hs]
  constructor
  · simp [hg1]
  · simp [hg1]

/-- Helper: the class post-processing on features with the griffin flag set
and level 6 yields the fully resolved griffin class. -/
lemma finalize_griffin (f : FullraceDate.ClassFeatures) (h1 : f.ClassGriffin = 1)
    (h6 : f.ClassLevel = 6) :
    (FullraceDate.finalizeClassFeatures f).ClassType = "GRF"
    ∧ (FullraceDate.finalizeClassFeatures f).ClassLevel = 6
    ∧ (FullraceDate.finalizeClassFeatures f).ClassML = 6
    ∧ (FullraceDate.finalizeClassFeatures f).Class = "GRIFFIN" := by
  unfold FullraceDate.finalizeClassFeatures
  simp [h1, h6]

/-- C7: for every class-label text containing a griffin marker, the fully
resolved class features have `ClassType = GRF`, `ClassLevel = 6`,
`ClassML = 6` and human label `GRIFFIN`, regardless of any other detected
category in the same label text. -/
theorem griffin_forces_class :
    ∀ s : String,
      pyIn "griffin" (pyLower ((FullraceDate.clean_text (some s)).getD "")) = true →
      (FullraceDate.finalizeClassFeatures (FullraceDate.encode_race_class (some s))).ClassType
          = "GRF"
      ∧ (FullraceDate.finalizeClassFeatures (FullraceDate.encode_race_class (some s))).ClassLevel
          = 6
      ∧ (FullraceDate.finalizeClassFeatures (FullraceDate.encode_race_class (some s))).ClassML
          = 6
      ∧ (FullraceDate.finalizeClassFeatures (FullraceDate.encode_race_class (some s))).Class
          = "GRIFFIN" := by
  intro s h
  have hs : ¬ (s = "") := by
    intro he
    subst he
    exact absurd h (by decide)
  obtain ⟨hg, hl⟩ := encode_griffin s hs h
  exact finalize_griffin _ hg hl

/-- C7 (witness): a griffin label that also contains a group-one marker
still resolves to the griffin class. -/
theorem griffin_forces_class_witness :
    (FullraceDate.finalizeClassFeatures
        (FullraceDate.encode_race_class (some "Group One Griffin Race"))).ClassType = "GRF"
    ∧ (FullraceDate.finalizeClassFeatures
        (FullraceDate.encode_race_class (some "Group One Griffin Race"))).ClassLevel = 6
    ∧ (FullraceDate.finalizeClassFeatures
        (FullraceDate.encode_race_class (some "Group One Griffin Race"))).ClassML = 6
    ∧ (FullraceDate.finalizeClassFeatures
        (FullraceDate.encode_race_class (some "Group One Griffin Race"))).Class = "GRIFFIN" :=
  griffin_forces_class "Group One Griffin Race" (by decide)
